import Mathlib

/-!
Shallow embedding of the secure-chat SDK core (EncryptionService,
WebRTCManager, SecureChatProvider) and proofs about its specified
behaviour.  Pure functions of the TypeScript source become Lean
functions; the mutable service objects become explicit state records
threaded through each operation; thrown JavaScript errors become
`Except.error` results.  JavaScript `Map`s are embedded as association
lists with `Map.get/set/delete/has` mirrored by `mapGet/mapSet/mapErase/mapHas`
(set replaces in place, new keys append, matching insertion-order
semantics).
-/

namespace SecureChat

/-- JavaScript `Map.get`: first (and only) binding for a key. -/
def mapGet {α : Type} (k : String) : List (String × α) → Option α
  | [] => none
  | (k1, v) :: rest => if k = k1 then some v else mapGet k rest

/-- JavaScript `Map.set`: replace the binding in place, or append a new one. -/
def mapSet {α : Type} (k : String) (v : α) : List (String × α) → List (String × α)
  | [] => [(k, v)]
  | (k1, v1) :: rest => if k = k1 then (k1, v) :: rest else (k1, v1) :: mapSet k v rest

/-- JavaScript `Map.delete`: drop the binding for a key. -/
def mapErase {α : Type} (k : String) : List (String × α) → List (String × α)
  | [] => []
  | (k1, v1) :: rest => if k = k1 then mapErase k rest else (k1, v1) :: mapErase k rest

/-- JavaScript `Map.has`. -/
def mapHas {α : Type} (k : String) (l : List (String × α)) : Bool :=
  (mapGet k l).isSome

/-- Derived symmetric key, kept symbolic: the ECDH + AES-GCM key-derivation of
the platform crypto primitive is out of scope for the repository, so a derived
key is represented by the pair of inputs that determines it (the local private
key and the remote public key).  Distinct inputs give distinct keys. -/
structure SharedKey where
  localPriv : Nat
  peerPub : List Nat
deriving DecidableEq, Repr

/-- Symbolic AES-GCM ciphertext: records the key and nonce it was produced
with together with the protected payload; the authentication tag of the
platform primitive is modelled by `aeadDecrypt` checking that the key and
nonce match exactly. -/
structure Cipher where
  key : SharedKey
  nonce : List Nat
  payload : List Nat
deriving DecidableEq, Repr

/-- Authenticated encryption (platform AES-GCM primitive, modelled by its
contract: decryption with the same key and nonce recovers the payload,
anything else fails authentication). -/
def aeadEncrypt (k : SharedKey) (nonce : List Nat) (plaintext : List Nat) : Cipher :=
  ⟨k, nonce, plaintext⟩

/-- Authenticated decryption (platform AES-GCM primitive): succeeds exactly
when the key and nonce are the ones the ciphertext was produced with. -/
def aeadDecrypt (k : SharedKey) (nonce : List Nat) (c : Cipher) : Option (List Nat) :=
  if c.key = k ∧ c.nonce = nonce then some c.payload else none

/-- State of `EncryptionService`: the local ECDH key pair (as a private
scalar and an exported public key), the per-peer shared-key map, and a
counter modelling the CSPRNG used for fresh nonces. -/
structure EncryptionService where
  keyPair : Option (Nat × List Nat)
  sharedKeys : List (String × SharedKey)
  rng : Nat
deriving DecidableEq, Repr

/-- `EncryptionService.getPublicKey`: export the local public key, failing
when the service was never initialized. -/
def EncryptionService.getPublicKey (svc : EncryptionService) : Except String (List Nat) :=
  match svc.keyPair with
  | none => .error "Encryption service not initialized"
  | some kp => .ok kp.2

/-- `EncryptionService.establishSharedKey`: require initialization, skip if a
key for this peer already exists, otherwise derive and store the key for
`peerId` from the local private key and the peer public key. -/
def EncryptionService.establishSharedKey (svc : EncryptionService) (peerId : String)
    (peerPublicKey : List Nat) : Except String Unit × EncryptionService :=
  match svc.keyPair with
  | none => (.error "Encryption service not initialized", svc)
  | some kp =>
    if mapHas peerId svc.sharedKeys then
      (.ok (), svc)
    else
      (.ok (), { svc with sharedKeys := mapSet peerId ⟨kp.1, peerPublicKey⟩ svc.sharedKeys })

/-- `EncryptionService.encrypt`: require a stored shared key for the peer
(else the thrown no-key error), draw a fresh random IV, and return the
AES-GCM ciphertext together with the IV. -/
def EncryptionService.encrypt (svc : EncryptionService) (plaintext : List Nat)
    (peerId : String) : Except String (Cipher × List Nat) × EncryptionService :=
  match mapGet peerId svc.sharedKeys with
  | none => (.error ("No shared key found for peer " ++ peerId), svc)
  | some sharedKey =>
    let iv := [svc.rng]
    (.ok (aeadEncrypt sharedKey iv plaintext, iv), { svc with rng := svc.rng + 1 })

/-- `EncryptionService.decrypt`: require a stored shared key for the peer
(else the thrown no-key error); fail with the decryption error when the
authentication check of the platform primitive rejects. -/
def EncryptionService.decrypt (svc : EncryptionService) (ciphertext : Cipher)
    (iv : List Nat) (peerId : String) : Except String (List Nat) × EncryptionService :=
  match mapGet peerId svc.sharedKeys with
  | none => (.error ("No shared key found for peer " ++ peerId), svc)
  | some sharedKey =>
    match aeadDecrypt sharedKey iv ciphertext with
    | none => (.error "Decryption failed", svc)
    | some plaintext => (.ok plaintext, svc)

/-- `EncryptionService.hasSharedKey`. -/
def EncryptionService.hasSharedKey (svc : EncryptionService) (peerId : String) : Bool :=
  mapHas peerId svc.sharedKeys

/-- `EncryptionService.removeSharedKey`. -/
def EncryptionService.removeSharedKey (svc : EncryptionService) (peerId : String) :
    EncryptionService :=
  { svc with sharedKeys := mapErase peerId svc.sharedKeys }

/-- Abstract negotiation connection (platform `RTCPeerConnection` as seen by
this code): the remote description slot, the signaling state string, and the
ordered record of `addIceCandidate` calls.  Descriptions and candidates are
opaque, abstracted as natural numbers. -/
structure PeerConn where
  remoteDescription : Option Nat
  signalingState : String
  appliedCandidates : List Nat
deriving DecidableEq, Repr

/-- Frames sent over a data channel (the tagged JSON frames of the source). -/
inductive Frame where
  | keyExchange (publicKey : List Nat) (sender : String) (timestamp : Nat) (isResponse : Bool)
  | encryptedMessage (ciphertext : Cipher) (iv : List Nat) (sender : String)
  | typingIndicator (typing : Bool) (sender : String)
deriving DecidableEq, Repr

/-- Abstract data channel (platform `RTCDataChannel` as seen by this code):
its ready state and the ordered sequence of frames sent on it. -/
structure DataChannel where
  readyState : String
  sent : List Frame
deriving DecidableEq, Repr

/-- Events the manager emits through its nullable callback fields. -/
inductive Event where
  | encryptionEstablished (peerId : String)
  | peerDisconnected (peerId : String)
  | messageReceived (payload : List Nat) (sender : String)
deriving DecidableEq, Repr

/-- State of `WebRTCManager`: the node identity and the five per-peer
tracking maps (peer connections, data channels, pending ICE candidate
queues, connection states, and — via the owned `EncryptionService` — shared
keys). -/
structure WebRTCManager where
  nodeId : String
  username : String
  peerConnections : List (String × PeerConn)
  dataChannels : List (String × DataChannel)
  pendingIceCandidates : List (String × List Nat)
  connectionStates : List (String × String)
  encryptionService : EncryptionService
deriving DecidableEq, Repr

/-- `WebRTCManager.handleIceCandidate`: with no connection object for the
sender the candidate is silently ignored; with a connection whose remote
description is applied the candidate is added immediately; otherwise it is
appended to the sender's pending queue (created on first use). -/
def WebRTCManager.handleIceCandidate (mgr : WebRTCManager) (senderId : String)
    (candidate : Nat) : WebRTCManager :=
  match mapGet senderId mgr.peerConnections with
  | none => mgr
  | some pc =>
    if pc.remoteDescription.isSome then
      let pc1 := { pc with appliedCandidates := pc.appliedCandidates ++ [candidate] }
      { mgr with peerConnections := mapSet senderId pc1 mgr.peerConnections }
    else
      let queue := (mapGet senderId mgr.pendingIceCandidates).getD []
      { mgr with pendingIceCandidates := mapSet senderId (queue ++ [candidate]) mgr.pendingIceCandidates }

/-- `WebRTCManager.processPendingIceCandidates`: when a nonempty queue exists
for the peer, add every queued candidate in order to the peer connection and
delete the queue entry. -/
def WebRTCManager.processPendingIceCandidates (mgr : WebRTCManager) (peerId : String) :
    WebRTCManager :=
  match mapGet peerId mgr.pendingIceCandidates with
  | none => mgr
  | some pendingCandidates =>
    if pendingCandidates.length > 0 then
      match mapGet peerId mgr.peerConnections with
      | none => mgr
      | some pc =>
        let pc1 := { pc with appliedCandidates := pc.appliedCandidates ++ pendingCandidates }
        { mgr with
          peerConnections := mapSet peerId pc1 mgr.peerConnections,
          pendingIceCandidates := mapErase peerId mgr.pendingIceCandidates }
    else mgr

/-- `WebRTCManager.handleAnswer`: when a connection exists for the sender in
the have-local-offer signaling state, apply the remote description and then
flush the pending candidate queue. -/
def WebRTCManager.handleAnswer (mgr : WebRTCManager) (senderId : String) (answer : Nat) :
    WebRTCManager :=
  match mapGet senderId mgr.peerConnections with
  | none => mgr
  | some pc =>
    if pc.signalingState = "have-local-offer" then
      let pc1 := { pc with remoteDescription := some answer, signalingState := "stable" }
      let mgr1 := { mgr with peerConnections := mapSet senderId pc1 mgr.peerConnections }
      mgr1.processPendingIceCandidates senderId
    else mgr

/-- `WebRTCManager.handlePeerDisconnected`: close and drop the peer
connection, delete the data channel, pending candidate queue, connection
state, and shared key, then emit the peer-disconnected event. -/
def WebRTCManager.handlePeerDisconnected (mgr : WebRTCManager) (peerId : String) :
    WebRTCManager × List Event :=
  let mgr1 := { mgr with
    peerConnections := mapErase peerId mgr.peerConnections,
    dataChannels := mapErase peerId mgr.dataChannels,
    pendingIceCandidates := mapErase peerId mgr.pendingIceCandidates,
    connectionStates := mapErase peerId mgr.connectionStates,
    encryptionService := mgr.encryptionService.removeSharedKey peerId }
  (mgr1, [Event.peerDisconnected peerId])

/-- `WebRTCManager.performKeyExchange`: do nothing unless the data channel is
open; emit the encryption-established event directly when a shared key
already exists; otherwise send the local public key as an initial (non-response)
key-exchange frame. -/
def WebRTCManager.performKeyExchange (mgr : WebRTCManager) (peerId : String) (now : Nat) :
    WebRTCManager × List Event :=
  match mapGet peerId mgr.dataChannels with
  | none => (mgr, [])
  | some dataChannel =>
    if dataChannel.readyState = "open" then
      if mgr.encryptionService.hasSharedKey peerId then
        (mgr, [Event.encryptionEstablished peerId])
      else
        match mgr.encryptionService.getPublicKey with
        | .error _ => (mgr, [])
        | .ok publicKey =>
          let frame := Frame.keyExchange publicKey mgr.nodeId now false
          let ch1 := { dataChannel with sent := dataChannel.sent ++ [frame] }
          ({ mgr with dataChannels := mapSet peerId ch1 mgr.dataChannels }, [])
    else (mgr, [])

/-- `WebRTCManager.handleKeyExchange`: when a shared key already exists, only
re-emit the encryption-established event; otherwise establish the key from
the received public key, reply once with the local public key marked as a
response when the incoming frame was not itself a response and the channel is
open, and emit the encryption-established event. -/
def WebRTCManager.handleKeyExchange (mgr : WebRTCManager) (publicKey : List Nat)
    (isResponse : Bool) (peerId : String) (now : Nat) : WebRTCManager × List Event :=
  if mgr.encryptionService.hasSharedKey peerId then
    (mgr, [Event.encryptionEstablished peerId])
  else
    match mgr.encryptionService.establishSharedKey peerId publicKey with
    | (.error _, svc1) => ({ mgr with encryptionService := svc1 }, [])
    | (.ok _, svc1) =>
      let mgr1 := { mgr with encryptionService := svc1 }
      match mapGet peerId mgr1.dataChannels with
      | none => (mgr1, [Event.encryptionEstablished peerId])
      | some dataChannel =>
        if dataChannel.readyState = "open" ∧ isResponse = false then
          match svc1.getPublicKey with
          | .error _ => (mgr1, [])
          | .ok ownKey =>
            let frame := Frame.keyExchange ownKey mgr1.nodeId now true
            let ch1 := { dataChannel with sent := dataChannel.sent ++ [frame] }
            ({ mgr1 with dataChannels := mapSet peerId ch1 mgr1.dataChannels },
             [Event.encryptionEstablished peerId])
        else (mgr1, [Event.encryptionEstablished peerId])

/-- `WebRTCManager.handleEncryptedMessage`: decrypt with the sender's shared
key; on any decryption failure the error is caught, nothing is delivered and
the state is left as it was; on success the decoded payload is delivered via
the message-received event. -/
def WebRTCManager.handleEncryptedMessage (mgr : WebRTCManager) (ciphertext : Cipher)
    (iv : List Nat) (peerId : String) : WebRTCManager × List Event :=
  match mgr.encryptionService.decrypt ciphertext iv peerId with
  | (.error _, svc1) => ({ mgr with encryptionService := svc1 }, [])
  | (.ok payload, svc1) =>
    ({ mgr with encryptionService := svc1 }, [Event.messageReceived payload peerId])

/-- Application message structure serialized into the encrypted payload. -/
structure MessageData where
  content : String
  timestamp : Nat
  sender : String
deriving DecidableEq, Repr

/-- Serialization of the message structure into plaintext bytes (the
JSON-stringify plus text-encode step of the source, abstracted). -/
def encodeMessageData (m : MessageData) : List Nat :=
  m.content.toList.map Char.toNat ++ [m.timestamp] ++ m.sender.toList.map Char.toNat

/-- `WebRTCManager.sendMessage`: require an open data channel for the peer
(else the thrown channel-unavailable error), encrypt the serialized message
data for the peer (which requires a stored shared key), and send the
encrypted-message frame on the channel. -/
def WebRTCManager.sendMessage (mgr : WebRTCManager) (peerId : String) (content : String)
    (now : Nat) : Except String Unit × WebRTCManager :=
  match mapGet peerId mgr.dataChannels with
  | none => (.error ("Data channel not available for " ++ peerId), mgr)
  | some dataChannel =>
    if dataChannel.readyState = "open" then
      let plaintext := encodeMessageData ⟨content, now, mgr.nodeId⟩
      match mgr.encryptionService.encrypt plaintext peerId with
      | (.error e, svc1) => (.error e, { mgr with encryptionService := svc1 })
      | (.ok res, svc1) =>
        let frame := Frame.encryptedMessage res.1 res.2 mgr.nodeId
        let ch1 := { dataChannel with sent := dataChannel.sent ++ [frame] }
        (.ok (), { mgr with
          encryptionService := svc1,
          dataChannels := mapSet peerId ch1 mgr.dataChannels })
    else (.error ("Data channel not available for " ++ peerId), mgr)

/-- `WebRTCManager.disconnect`: clear every per-peer tracking map of the
manager; the owned `EncryptionService` (and so every stored shared key) is
left untouched. -/
def WebRTCManager.disconnect (mgr : WebRTCManager) : WebRTCManager :=
  { mgr with
    peerConnections := [],
    dataChannels := [],
    pendingIceCandidates := [],
    connectionStates := [] }

/-- Channel state after one more frame is sent on it. -/
def DataChannel.afterSend (ch : DataChannel) (f : Frame) : DataChannel :=
  { ch with sent := ch.sent ++ [f] }

/-- Dispatch of an incoming data channel frame (`handleDataChannelMessage`). -/
def WebRTCManager.handleDataChannelFrame (mgr : WebRTCManager) (f : Frame) (peerId : String)
    (now : Nat) : WebRTCManager × List Event :=
  match f with
  | .keyExchange publicKey _sender _ts isResp => mgr.handleKeyExchange publicKey isResp peerId now
  | .encryptedMessage ct iv _sender => mgr.handleEncryptedMessage ct iv peerId
  | .typingIndicator _ _ => (mgr, [])

/-- Sequential delivery of a list of frames to a node, collecting the events
it emits while handling them. -/
def WebRTCManager.handleFrames (mgr : WebRTCManager) (fs : List Frame) (peerId : String)
    (now : Nat) : WebRTCManager × List Event :=
  fs.foldl
    (fun acc f =>
      let r := acc.1.handleDataChannelFrame f peerId now
      (r.1, acc.2 ++ r.2))
    (mgr, [])

/-- Frames a node has sent so far on its data channel towards a given peer. -/
def sentFrames (mgr : WebRTCManager) (target : String) : List Frame :=
  ((mapGet target mgr.dataChannels).getD ⟨"closed", []⟩).sent

/-- Node with an open data channel to one peer and an initialized encryption
service holding no shared keys yet: the state of each side right after the
data channel to the other side has opened, just before key exchange. -/
def mkKXNode (nodeId username : String) (priv : Nat) (pub : List Nat) (otherId : String) :
    WebRTCManager :=
  { nodeId := nodeId,
    username := username,
    peerConnections := [],
    dataChannels := [(otherId, { readyState := "open", sent := [] })],
    pendingIceCandidates := [],
    connectionStates := [],
    encryptionService := { keyPair := some (priv, pub), sharedKeys := [], rng := 0 } }

/-- Crossed-in-flight key exchange between nodes `a` and `b`: both initiate
before either receives (`performKeyExchange` on each side), then each side
handles the frames the other produced so far (the crossed initial
key-exchange messages), then each side handles the frames newly produced by
that step (the responses).  Every sent frame is delivered exactly once, in
order.  Returns each side's final manager state paired with the full event
trace it emitted. -/
def crossedScenario (a b ua ub : String) (privA privB : Nat) (pubA pubB : List Nat) :
    (WebRTCManager × List Event) × (WebRTCManager × List Event) :=
  let A0 := mkKXNode a ua privA pubA b
  let B0 := mkKXNode b ub privB pubB a
  let pA := A0.performKeyExchange b 0
  let pB := B0.performKeyExchange a 0
  let qA := pA.1.handleFrames (sentFrames pB.1 a) b 1
  let qB := pB.1.handleFrames (sentFrames pA.1 b) a 1
  let rA := qA.1.handleFrames ((sentFrames qB.1 a).drop (sentFrames pB.1 a).length) b 2
  let rB := qB.1.handleFrames ((sentFrames qA.1 b).drop (sentFrames pA.1 b).length) a 2
  ((rA.1, pA.2 ++ qA.2 ++ rA.2), (rB.1, pB.2 ++ qB.2 ++ rB.2))

/-- Entry of the peer directory. -/
structure Peer where
  id : String
  name : String
  online : Bool
  connectionState : String
  encryptionEstablished : Bool
deriving DecidableEq, Repr

/-- Entry of the message log. -/
structure Message where
  id : String
  content : String
  sender : String
  senderName : String
  timestamp : Nat
  encrypted : Bool
  isOwn : Bool
deriving DecidableEq, Repr

/-- State of the `SecureChatProvider` orchestrator: peer directory, selected
peer, message log, typing flag, and the owned manager. -/
structure ProviderState where
  username : String
  peers : List Peer
  selectedPeer : Option Peer
  messages : List Message
  isTyping : Bool
  mgr : WebRTCManager
deriving DecidableEq, Repr

/-- Provider `sendMessage`: fail when no peer is selected; otherwise append
the locally-owned message to the log optimistically and then forward the
content through the manager, whose failure (closed channel or missing shared
key) is propagated while the appended message remains in the log. -/
def ProviderState.sendMessage (st : ProviderState) (content : String) (msgId : String)
    (now : Nat) : Except String Unit × ProviderState :=
  match st.selectedPeer with
  | none => (.error "No peer selected or WebRTC manager not initialized", st)
  | some peer =>
    let message : Message :=
      { id := msgId, content := content, sender := st.mgr.nodeId, senderName := st.username,
        timestamp := now, encrypted := true, isOwn := true }
    let st1 := { st with messages := st.messages ++ [message] }
    match st1.mgr.sendMessage peer.id content now with
    | (.error e, mgr1) => (.error e, { st1 with mgr := mgr1 })
    | (.ok _, mgr1) => (.ok (), { st1 with mgr := mgr1 })

/-- Provider callback for the peer-disconnected event: mark the peer offline
with a disconnected connection state and encryption no longer established;
the entry stays in the directory. -/
def ProviderState.onPeerDisconnectedHandler (st : ProviderState) (peerId : String) :
    ProviderState :=
  { st with peers := st.peers.map (fun p =>
      if p.id = peerId then
        { p with online := false, connectionState := "disconnected", encryptionEstablished := false }
      else p) }

/-- Provider `disconnectPeer`: tear the peer down in the manager (which fires
the peer-disconnected callback, handled as above), then filter the peer out
of the directory, and clear selection and log when it was the selected
peer. -/
def ProviderState.disconnectPeer (st : ProviderState) (peerId : String) : ProviderState :=
  let r := st.mgr.handlePeerDisconnected peerId
  let st1 := ProviderState.onPeerDisconnectedHandler { st with mgr := r.1 } peerId
  let st2 := { st1 with peers := st1.peers.filter (fun p => p.id ≠ peerId) }
  match st2.selectedPeer with
  | some sp => if sp.id = peerId then { st2 with selectedPeer := none, messages := [] } else st2
  | none => st2

/-- Terminal negotiation failure as the provider experiences it: the manager
tears the peer down (`handlePeerDisconnected`, invoked from the failed
connection-state path) and the provider consumes the events it emits with
the wired peer-disconnected callback. -/
def ProviderState.onTerminalFailure (st : ProviderState) (peerId : String) : ProviderState :=
  let r := st.mgr.handlePeerDisconnected peerId
  r.2.foldl
    (fun s e =>
      match e with
      | Event.peerDisconnected pid => s.onPeerDisconnectedHandler pid
      | _ => s)
    { st with mgr := r.1 }

theorem mapGet_mapErase_self {α : Type} (k : String) (l : List (String × α)) :
    mapGet k (mapErase k l) = none := by
  induction l with
  | nil => rfl
  | cons hd tl ih =>
    by_cases h : k = hd.1
    · simpa [mapErase, h] using ih
    · simp [mapErase, mapGet, h, ih]

theorem mapGet_mapSet_self {α : Type} (k : String) (v : α) (l : List (String × α)) :
    mapGet k (mapSet k v l) = some v := by
  induction l with
  | nil => simp [mapSet, mapGet]
  | cons hd tl ih =>
    by_cases h : k = hd.1
    · simp [mapSet, mapGet, h]
    · simp [mapSet, mapGet, h, ih]

theorem mapSet_mapSet_self {α : Type} (k : String) (v1 v2 : α) (l : List (String × α)) :
    mapSet k v2 (mapSet k v1 l) = mapSet k v2 l := by
  induction l with
  | nil => simp [mapSet]
  | cons hd tl ih =>
    by_cases h : k = hd.1
    · simp [mapSet, h]
    · simp [mapSet, h, ih]

/-- C4: for every peer with an established shared key and every byte payload
`m`, decrypting the result of encrypting `m` for that peer (with the nonce
returned by `encrypt`) yields `m`, and decryption leaves the service state
unchanged. -/
theorem C4_decrypt_encrypt_roundtrip (svc : EncryptionService) (m : List Nat) (peerId : String)
    (k : SharedKey) (h : mapGet peerId svc.sharedKeys = some k) :
    ∃ ct iv svc1,
      svc.encrypt m peerId = (.ok (ct, iv), svc1) ∧
      (svc1.decrypt ct iv peerId).1 = .ok m ∧
      (svc1.decrypt ct iv peerId).2 = svc1 := by
  refine ⟨aeadEncrypt k [svc.rng] m, [svc.rng], { svc with rng := svc.rng + 1 }, ?_, ?_, ?_⟩ <;>
    simp [EncryptionService.encrypt, EncryptionService.decrypt, h, aeadDecrypt, aeadEncrypt]

/-- Witness for C4 at a concrete service state holding a key for peer b. -/
theorem C4_decrypt_encrypt_roundtrip_witness :
    ∃ ct iv svc1,
      EncryptionService.encrypt ⟨some (1, [1]), [("b", ⟨1, [2]⟩)], 0⟩ [5, 6, 7] "b" =
        (.ok (ct, iv), svc1) ∧
      (svc1.decrypt ct iv "b").1 = .ok [5, 6, 7] ∧
      (svc1.decrypt ct iv "b").2 = svc1 :=
  C4_decrypt_encrypt_roundtrip ⟨some (1, [1]), [("b", ⟨1, [2]⟩)], 0⟩ [5, 6, 7] "b" ⟨1, [2]⟩
    (by decide)

/-- C6: for a peer id that already has a stored shared key (here: after any
first establishment call), calling `establishSharedKey` again leaves the
stored state unchanged and returns without error. -/
theorem C6_establish_twice_noop (svc : EncryptionService) (kp : Nat × List Nat) (peerId : String)
    (pub1 pub2 : List Nat) (hkp : svc.keyPair = some kp) :
    (svc.establishSharedKey peerId pub1).2.establishSharedKey peerId pub2 =
      (.ok (), (svc.establishSharedKey peerId pub1).2) := by
  cases hhas : mapHas peerId svc.sharedKeys with
  | true => simp [EncryptionService.establishSharedKey, hkp, hhas]
  | false =>
    have hget : (mapGet peerId svc.sharedKeys).isSome = false := by
      simpa [mapHas] using hhas
    simp [EncryptionService.establishSharedKey, hkp, mapHas, hget, mapGet_mapSet_self]

/-- Witness for C6 at a concrete initialized service. -/
theorem C6_establish_twice_noop_witness :
    (EncryptionService.establishSharedKey ⟨some (1, [1]), [], 0⟩ "b" [2]).2.establishSharedKey
        "b" [9] =
      (.ok (), (EncryptionService.establishSharedKey ⟨some (1, [1]), [], 0⟩ "b" [2]).2) :=
  C6_establish_twice_noop ⟨some (1, [1]), [], 0⟩ (1, [1]) "b" [2] [9] rfl

/-- C7: for a peer id with no stored shared key, both `encrypt` and `decrypt`
fail with the no-key error and return the service state unchanged (in
particular the stored key map is unchanged). -/
theorem C7_no_key_error (svc : EncryptionService) (peerId : String) (pt : List Nat)
    (ct : Cipher) (iv : List Nat) (h : mapGet peerId svc.sharedKeys = none) :
    svc.encrypt pt peerId = (.error ("No shared key found for peer " ++ peerId), svc) ∧
    svc.decrypt ct iv peerId = (.error ("No shared key found for peer " ++ peerId), svc) := by
  constructor <;> simp [EncryptionService.encrypt, EncryptionService.decrypt, h]

/-- Witness for C7 at a concrete service with an empty key map. -/
theorem C7_no_key_error_witness :
    EncryptionService.encrypt ⟨some (1, [1]), [], 0⟩ [5] "b" =
      (.error ("No shared key found for peer " ++ "b"), ⟨some (1, [1]), [], 0⟩) ∧
    EncryptionService.decrypt ⟨some (1, [1]), [], 0⟩ ⟨⟨1, [2]⟩, [0], [5]⟩ [0] "b" =
      (.error ("No shared key found for peer " ++ "b"), ⟨some (1, [1]), [], 0⟩) :=
  C7_no_key_error ⟨some (1, [1]), [], 0⟩ "b" [5] ⟨⟨1, [2]⟩, [0], [5]⟩ [0] rfl

/-- C8: a ciphertext produced under the key derived for peer A (public key
`pubA`) is rejected when decrypted with the key stored for peer B (public key
`pubB`, distinct from `pubA`): `decrypt` fails with the decryption error, and
`handleEncryptedMessage` delivers nothing and leaves the manager state
exactly as it was. -/
theorem C8_foreign_ciphertext_rejected (mgr : WebRTCManager) (peerB : String) (priv : Nat)
    (pubA pubB nonce m : List Nat)
    (hB : mapGet peerB mgr.encryptionService.sharedKeys = some ⟨priv, pubB⟩)
    (hpub : pubA ≠ pubB) :
    (mgr.encryptionService.decrypt (aeadEncrypt ⟨priv, pubA⟩ nonce m) nonce peerB).1 =
      .error "Decryption failed" ∧
    mgr.handleEncryptedMessage (aeadEncrypt ⟨priv, pubA⟩ nonce m) nonce peerB = (mgr, []) := by
  constructor <;>
    simp [WebRTCManager.handleEncryptedMessage, EncryptionService.decrypt, hB,
      aeadDecrypt, aeadEncrypt, hpub]

/-- Witness for C8 at a concrete manager holding B's key while the ciphertext
was produced under A's key. -/
theorem C8_foreign_ciphertext_rejected_witness :
    ((⟨"n", "u", [], [], [], [], ⟨some (1, [1]), [("b", ⟨1, [2]⟩)], 0⟩⟩ :
        WebRTCManager).encryptionService.decrypt (aeadEncrypt ⟨1, [3]⟩ [0] [7]) [0] "b").1 =
      .error "Decryption failed" ∧
    (⟨"n", "u", [], [], [], [], ⟨some (1, [1]), [("b", ⟨1, [2]⟩)], 0⟩⟩ :
        WebRTCManager).handleEncryptedMessage (aeadEncrypt ⟨1, [3]⟩ [0] [7]) [0] "b" =
      (⟨"n", "u", [], [], [], [], ⟨some (1, [1]), [("b", ⟨1, [2]⟩)], 0⟩⟩, []) :=
  C8_foreign_ciphertext_rejected
    ⟨"n", "u", [], [], [], [], ⟨some (1, [1]), [("b", ⟨1, [2]⟩)], 0⟩⟩ "b" 1 [3] [2] [0] [7]
    (by decide) (by decide)

/-- C3: tearing a peer down removes its entry from all five per-peer
tracking structures — peer connection, data channel, pending candidate
queue, connection state, shared key — in the single returned state (the one
observable step of the embedding), and the peer-disconnected event is
emitted exactly once, alongside that fully-cleaned state. -/
theorem C3_teardown_removes_everything (mgr : WebRTCManager) (peerId : String) :
    mapGet peerId (mgr.handlePeerDisconnected peerId).1.peerConnections = none ∧
    mapGet peerId (mgr.handlePeerDisconnected peerId).1.dataChannels = none ∧
    mapGet peerId (mgr.handlePeerDisconnected peerId).1.pendingIceCandidates = none ∧
    mapGet peerId (mgr.handlePeerDisconnected peerId).1.connectionStates = none ∧
    (mgr.handlePeerDisconnected peerId).1.encryptionService.hasSharedKey peerId = false ∧
    (mgr.handlePeerDisconnected peerId).2 = [Event.peerDisconnected peerId] := by
  simp [WebRTCManager.handlePeerDisconnected, EncryptionService.removeSharedKey,
    EncryptionService.hasSharedKey, mapHas, mapGet_mapErase_self]

/-- C10: `disconnect` clears the four per-peer maps of the manager but keeps
the encryption service — and hence every stored shared key — untouched. -/
theorem C10_disconnect_preserves_shared_keys (mgr : WebRTCManager) (peerId : String)
    (h : mgr.encryptionService.hasSharedKey peerId = true) :
    mgr.disconnect.peerConnections = [] ∧
    mgr.disconnect.dataChannels = [] ∧
    mgr.disconnect.pendingIceCandidates = [] ∧
    mgr.disconnect.connectionStates = [] ∧
    mgr.disconnect.encryptionService = mgr.encryptionService ∧
    mgr.disconnect.encryptionService.hasSharedKey peerId = true := by
  simp [WebRTCManager.disconnect, h]

/-- Witness for C10 at a concrete manager with an established key and live
per-peer entries. -/
theorem C10_disconnect_preserves_shared_keys_witness :
    (⟨"n", "u", [("b", ⟨none, "stable", []⟩)], [("b", ⟨"open", []⟩)], [("b", [4])],
        [("b", "connected")], ⟨some (1, [1]), [("b", ⟨1, [2]⟩)], 0⟩⟩ :
      WebRTCManager).disconnect.peerConnections = [] ∧
    (⟨"n", "u", [("b", ⟨none, "stable", []⟩)], [("b", ⟨"open", []⟩)], [("b", [4])],
        [("b", "connected")], ⟨some (1, [1]), [("b", ⟨1, [2]⟩)], 0⟩⟩ :
      WebRTCManager).disconnect.dataChannels = [] ∧
    (⟨"n", "u", [("b", ⟨none, "stable", []⟩)], [("b", ⟨"open", []⟩)], [("b", [4])],
        [("b", "connected")], ⟨some (1, [1]), [("b", ⟨1, [2]⟩)], 0⟩⟩ :
      WebRTCManager).disconnect.pendingIceCandidates = [] ∧
    (⟨"n", "u", [("b", ⟨none, "stable", []⟩)], [("b", ⟨"open", []⟩)], [("b", [4])],
        [("b", "connected")], ⟨some (1, [1]), [("b", ⟨1, [2]⟩)], 0⟩⟩ :
      WebRTCManager).disconnect.connectionStates = [] ∧
    (⟨"n", "u", [("b", ⟨none, "stable", []⟩)], [("b", ⟨"open", []⟩)], [("b", [4])],
        [("b", "connected")], ⟨some (1, [1]), [("b", ⟨1, [2]⟩)], 0⟩⟩ :
      WebRTCManager).disconnect.encryptionService =
        ⟨some (1, [1]), [("b", ⟨1, [2]⟩)], 0⟩ ∧
    (⟨"n", "u", [("b", ⟨none, "stable", []⟩)], [("b", ⟨"open", []⟩)], [("b", [4])],
        [("b", "connected")], ⟨some (1, [1]), [("b", ⟨1, [2]⟩)], 0⟩⟩ :
      WebRTCManager).disconnect.encryptionService.hasSharedKey "b" = true :=
  C10_disconnect_preserves_shared_keys
    ⟨"n", "u", [("b", ⟨none, "stable", []⟩)], [("b", ⟨"open", []⟩)], [("b", [4])],
      [("b", "connected")], ⟨some (1, [1]), [("b", ⟨1, [2]⟩)], 0⟩⟩ "b" (by decide)

theorem handleIceCandidate_queues (mgr : WebRTCManager) (peerId : String) (pc : PeerConn)
    (c : Nat) (hpc : mapGet peerId mgr.peerConnections = some pc)
    (hrd : pc.remoteDescription = none) :
    mgr.handleIceCandidate peerId c =
      { mgr with pendingIceCandidates := mapSet peerId ((mapGet peerId mgr.pendingIceCandidates).getD [] ++ [c]) mgr.pendingIceCandidates } := by
  simp [WebRTCManager.handleIceCandidate, hpc, hrd]

theorem foldl_handleIceCandidate_queues (peerId : String) (pc : PeerConn)
    (hrd : pc.remoteDescription = none) (cs : List Nat) :
    ∀ mgr : WebRTCManager, mapGet peerId mgr.peerConnections = some pc → cs ≠ [] →
      cs.foldl (fun m cand => m.handleIceCandidate peerId cand) mgr =
        { mgr with pendingIceCandidates := mapSet peerId ((mapGet peerId mgr.pendingIceCandidates).getD [] ++ cs) mgr.pendingIceCandidates } := by
  induction cs with
  | nil => intro mgr _ hne; exact absurd rfl hne
  | cons c rest ih =>
    intro mgr hpc _
    rw [List.foldl_cons, handleIceCandidate_queues mgr peerId pc c hpc hrd]
    cases hrest : rest with
    | nil =>
      simp
    | cons r rs =>
      rw [← hrest]
      rw [ih _ (by simpa using hpc) (by simp [hrest])]
      simp [mapGet_mapSet_self, mapSet_mapSet_self]

/-- C2 counterexample: a candidate that arrives before the peer connection
object exists is dropped, not appended to the pending queue (the manager
state is completely unchanged), so it can never be applied by the later
flush. -/
theorem C2_counterexample :
    WebRTCManager.handleIceCandidate (mkKXNode "a" "u" 1 [1] "b") "b" 7 =
      mkKXNode "a" "u" 1 [1] "b" ∧
    mapGet "b" (WebRTCManager.handleIceCandidate (mkKXNode "a" "u" 1 [1] "b") "b"
      7).pendingIceCandidates = none := by
  decide

/-- C2 as amended: for candidates that arrive while the peer connection
object exists but before its remote description is applied, each is appended
to the pending queue in arrival order; applying the remote description (the
answer-handling path) then applies the whole queue to the connection in the
original arrival order, with none dropped or reordered, and removes the
queue entry.  Candidates arriving before the peer connection object exists
are dropped. -/
theorem C2_pending_candidates_fifo (mgr : WebRTCManager) (peerId : String) (pc : PeerConn)
    (c : Nat) (rest : List Nat) (d : Nat)
    (hpc : mapGet peerId mgr.peerConnections = some pc)
    (hrd : pc.remoteDescription = none)
    (hsig : pc.signalingState = "have-local-offer")
    (hq : mapGet peerId mgr.pendingIceCandidates = none) :
    mapGet peerId ((c :: rest).foldl (fun m cand => m.handleIceCandidate peerId cand)
        mgr).pendingIceCandidates = some (c :: rest) ∧
    mapGet peerId (((c :: rest).foldl (fun m cand => m.handleIceCandidate peerId cand)
        mgr).handleAnswer peerId d).peerConnections =
      some { pc with remoteDescription := some d, signalingState := "stable",
                     appliedCandidates := pc.appliedCandidates ++ (c :: rest) } ∧
    mapGet peerId (((c :: rest).foldl (fun m cand => m.handleIceCandidate peerId cand)
        mgr).handleAnswer peerId d).pendingIceCandidates = none := by
  rw [foldl_handleIceCandidate_queues peerId pc hrd (c :: rest) mgr hpc (by simp)]
  rw [hq]
  refine ⟨by simp [mapGet_mapSet_self], ?_, ?_⟩ <;>
    simp [WebRTCManager.handleAnswer, WebRTCManager.processPendingIceCandidates, hpc, hsig,
      mapGet_mapSet_self, mapSet_mapSet_self, mapGet_mapErase_self]

/-- Witness for C2 as amended: two candidates queued while the connection
awaits its answer are both applied, in order, once the answer arrives, and
the queue entry is removed. -/
theorem C2_pending_candidates_fifo_witness :
    mapGet "b" (([4, 9] : List Nat).foldl
        (fun m cand => m.handleIceCandidate "b" cand)
        (⟨"a", "u", [("b", ⟨none, "have-local-offer", []⟩)], [], [], [],
          ⟨some (1, [1]), [], 0⟩⟩ : WebRTCManager)).pendingIceCandidates = some [4, 9] ∧
    mapGet "b" ((([4, 9] : List Nat).foldl
        (fun m cand => m.handleIceCandidate "b" cand)
        (⟨"a", "u", [("b", ⟨none, "have-local-offer", []⟩)], [], [], [],
          ⟨some (1, [1]), [], 0⟩⟩ : WebRTCManager)).handleAnswer "b" 3).peerConnections =
      some ⟨some 3, "stable", [4, 9]⟩ ∧
    mapGet "b" ((([4, 9] : List Nat).foldl
        (fun m cand => m.handleIceCandidate "b" cand)
        (⟨"a", "u", [("b", ⟨none, "have-local-offer", []⟩)], [], [], [],
          ⟨some (1, [1]), [], 0⟩⟩ : WebRTCManager)).handleAnswer "b" 3).pendingIceCandidates =
      none :=
  C2_pending_candidates_fifo
    ⟨"a", "u", [("b", ⟨none, "have-local-offer", []⟩)], [], [], [], ⟨some (1, [1]), [], 0⟩⟩
    "b" ⟨none, "have-local-offer", []⟩ 4 [9] 3 (by decide) rfl rfl rfl

theorem filter_eq_of_filter_ne (peerId : String) (l : List Peer) :
    (l.filter (fun p => p.id ≠ peerId)).filter (fun p => p.id = peerId) = [] := by
  induction l with
  | nil => rfl
  | cons hd tl ih => by_cases h : hd.id = peerId <;> simp [h, ih]

theorem map_id_mark_offline (peerId : String) (l : List Peer) :
    (l.map (fun p =>
      if p.id = peerId then
        { p with online := false, connectionState := "disconnected", encryptionEstablished := false }
      else p)).map Peer.id = l.map Peer.id := by
  induction l with
  | nil => rfl
  | cons hd tl ih => by_cases h : hd.id = peerId <;> simp [h, ih]

/-- C9 counterexample: after the peer-disconnected path runs for a peer that
is in the directory (the terminal negotiation-failure path), the peer's
entry is still present in the directory — it is only marked offline — so the
claimed removal does not happen on this path. -/
theorem C9_counterexample :
    ((⟨"u", [⟨"b", "bee", true, "connected", true⟩], none, [], false,
        mkKXNode "a" "u" 1 [1] "b"⟩ :
      ProviderState).onTerminalFailure "b").peers.map Peer.id = ["b"] ∧
    ((⟨"u", [⟨"b", "bee", true, "connected", true⟩], none, [], false,
        mkKXNode "a" "u" 1 [1] "b"⟩ :
      ProviderState).onTerminalFailure "b").peers.any (fun p => p.id = "b") = true := by
  decide

/-- C9 as amended: on explicit disconnect the peer's entry is removed from
the directory; on terminal negotiation failure (the peer-disconnected path)
the entry is retained — the directory keeps exactly the same peer ids — and
the peer is only marked offline, with a disconnected connection state and
encryption no longer established. -/
theorem C9_directory_removal_only_on_explicit_disconnect (st : ProviderState)
    (peerId : String) :
    (st.disconnectPeer peerId).peers.filter (fun p => p.id = peerId) = [] ∧
    (st.onTerminalFailure peerId).peers.map Peer.id = st.peers.map Peer.id ∧
    (st.onTerminalFailure peerId).peers.all
      (fun p => p.id ≠ peerId ||
        (!p.online && (p.connectionState = "disconnected") && !p.encryptionEstablished)) = true := by
  refine ⟨?_, ?_, ?_⟩
  · have hpeers : (st.disconnectPeer peerId).peers =
        (ProviderState.onPeerDisconnectedHandler
          { st with mgr := (st.mgr.handlePeerDisconnected peerId).1 } peerId).peers.filter
            (fun p => p.id ≠ peerId) := by
      unfold ProviderState.disconnectPeer
      dsimp only
      cases st.selectedPeer with
      | none => rfl
      | some sp =>
        by_cases h : sp.id = peerId <;> simp [ProviderState.onPeerDisconnectedHandler, h]
    rw [hpeers]
    exact filter_eq_of_filter_ne peerId _
  · unfold ProviderState.onTerminalFailure WebRTCManager.handlePeerDisconnected
    simp only [List.foldl_cons, List.foldl_nil]
    exact map_id_mark_offline peerId st.peers
  · unfold ProviderState.onTerminalFailure WebRTCManager.handlePeerDisconnected
    simp only [List.foldl_cons, List.foldl_nil, ProviderState.onPeerDisconnectedHandler,
      List.all_map]
    rw [List.all_eq_true]
    intro p _
    by_cases h : p.id = peerId <;> simp [h]

/-- C5 counterexample: with a selected peer whose encryption is not
established (no data channel, no shared key), `sendMessage` does fail — but
only after appending the optimistic locally-owned message to the log, and
the failure comes from the channel/key check inside the forward, not from a
synchronous check of the `encryptionEstablished` flag. -/
theorem C5_counterexample :
    ((⟨"u", [⟨"b", "bee", true, "connecting", false⟩], some ⟨"b", "bee", true, "connecting", false⟩,
        [], false, ⟨"a", "u", [], [], [], [], ⟨some (1, [1]), [], 0⟩⟩⟩ :
      ProviderState).sendMessage "hi" "m1" 0).1 =
        .error ("Data channel not available for " ++ "b") ∧
    ((⟨"u", [⟨"b", "bee", true, "connecting", false⟩], some ⟨"b", "bee", true, "connecting", false⟩,
        [], false, ⟨"a", "u", [], [], [], [], ⟨some (1, [1]), [], 0⟩⟩⟩ :
      ProviderState).sendMessage "hi" "m1" 0).2.messages.length = 1 :=
  ⟨rfl, rfl⟩

/-- C5 as amended: `sendMessage` fails with the no-peer error and no state
change when no peer is selected; with a selected peer it always appends
exactly one locally-owned message to the log — also when the forward then
fails; the call succeeds exactly when the selected peer has an open data
channel and a stored shared key (the `encryptionEstablished` flag itself is
never consulted), and on success the encrypted payload frame is sent on the
selected peer's channel. -/
theorem C5_send_message_behavior (st : ProviderState) (content msgId : String) (now : Nat) :
    (st.selectedPeer = none →
      st.sendMessage content msgId now =
        (.error "No peer selected or WebRTC manager not initialized", st)) ∧
    (∀ peer, st.selectedPeer = some peer →
      (st.sendMessage content msgId now).2.messages =
        st.messages ++ [⟨msgId, content, st.mgr.nodeId, st.username, now, true, true⟩] ∧
      ((st.sendMessage content msgId now).1 = .ok () ↔
        ∃ ch, mapGet peer.id st.mgr.dataChannels = some ch ∧ ch.readyState = "open" ∧
          st.mgr.encryptionService.hasSharedKey peer.id = true) ∧
      (∀ ch k, mapGet peer.id st.mgr.dataChannels = some ch → ch.readyState = "open" →
        mapGet peer.id st.mgr.encryptionService.sharedKeys = some k →
        mapGet peer.id (st.sendMessage content msgId now).2.mgr.dataChannels =
          some (ch.afterSend (Frame.encryptedMessage
            (aeadEncrypt k [st.mgr.encryptionService.rng]
              (encodeMessageData ⟨content, now, st.mgr.nodeId⟩))
            [st.mgr.encryptionService.rng] st.mgr.nodeId)))) := by
  refine ⟨fun hsel => by simp [ProviderState.sendMessage, hsel], ?_⟩
  intro peer hsel
  cases hch : mapGet peer.id st.mgr.dataChannels with
  | none =>
    refine ⟨?_, ?_, ?_⟩
    · simp [ProviderState.sendMessage, hsel, WebRTCManager.sendMessage, hch]
    · simp [ProviderState.sendMessage, hsel, WebRTCManager.sendMessage, hch]
    · intro ch k hch2 _ _
      exact Option.noConfusion hch2
  | some ch =>
    by_cases hopen : ch.readyState = "open"
    · cases hk : mapGet peer.id st.mgr.encryptionService.sharedKeys with
      | none =>
        refine ⟨?_, ?_, ?_⟩
        · simp [ProviderState.sendMessage, hsel, WebRTCManager.sendMessage, hch, hopen,
            EncryptionService.encrypt, hk]
        · simp [ProviderState.sendMessage, hsel, WebRTCManager.sendMessage, hch, hopen,
            EncryptionService.encrypt, hk, EncryptionService.hasSharedKey, mapHas]
        · intro ch2 k hch2 hopen2 hk2
          exact Option.noConfusion hk2
      | some k =>
        refine ⟨?_, ?_, ?_⟩
        · simp [ProviderState.sendMessage, hsel, WebRTCManager.sendMessage, hch, hopen,
            EncryptionService.encrypt, hk]
        · simp [ProviderState.sendMessage, hsel, WebRTCManager.sendMessage, hch, hopen,
            EncryptionService.encrypt, hk, EncryptionService.hasSharedKey, mapHas]
        · intro ch2 k2 hch2 hopen2 hk2
          injection hch2 with e1
          injection hk2 with e2
          subst e1
          subst e2
          simp [ProviderState.sendMessage, hsel, WebRTCManager.sendMessage, hch, hopen,
            EncryptionService.encrypt, hk, DataChannel.afterSend, aeadEncrypt,
            mapGet_mapSet_self]
    · refine ⟨?_, ?_, ?_⟩
      · simp [ProviderState.sendMessage, hsel, WebRTCManager.sendMessage, hch, hopen]
      · simp [ProviderState.sendMessage, hsel, WebRTCManager.sendMessage, hch, hopen]
      · intro ch2 k hch2 hopen2 hk2
        injection hch2 with e1
        subst e1
        exact absurd hopen2 hopen

/-- Witness for C5 as amended: a fully-established selected peer makes the
send succeed with the message appended. -/
theorem C5_send_message_behavior_witness :
    ((⟨"u", [⟨"b", "bee", true, "connected", true⟩], some ⟨"b", "bee", true, "connected", true⟩,
        [], false, ⟨"a", "u", [], [("b", ⟨"open", []⟩)], [], [],
          ⟨some (1, [1]), [("b", ⟨1, [2]⟩)], 0⟩⟩⟩ :
      ProviderState).sendMessage "hi" "m1" 5).1 = .ok () ∧
    ((⟨"u", [⟨"b", "bee", true, "connected", true⟩], some ⟨"b", "bee", true, "connected", true⟩,
        [], false, ⟨"a", "u", [], [("b", ⟨"open", []⟩)], [], [],
          ⟨some (1, [1]), [("b", ⟨1, [2]⟩)], 0⟩⟩⟩ :
      ProviderState).sendMessage "hi" "m1" 5).2.messages =
      [⟨"m1", "hi", "a", "u", 5, true, true⟩] := by
  have h := (C5_send_message_behavior
    ⟨"u", [⟨"b", "bee", true, "connected", true⟩], some ⟨"b", "bee", true, "connected", true⟩,
      [], false, ⟨"a", "u", [], [("b", ⟨"open", []⟩)], [], [],
        ⟨some (1, [1]), [("b", ⟨1, [2]⟩)], 0⟩⟩⟩ "hi" "m1" 5).2
    ⟨"b", "bee", true, "connected", true⟩ rfl
  exact ⟨h.2.1.mpr ⟨⟨"open", []⟩, by decide, by decide, by decide⟩, by simpa using h.1⟩

/-- C1 counterexample: in the crossed-in-flight key-exchange run, each side
converges to one stored key but emits the encryption-established event
twice, not exactly once — once when the incoming initial key-exchange
message establishes the key, and once more when the incoming response finds
the key already present. -/
theorem C1_counterexample :
    (crossedScenario "a" "b" "ua" "ub" 1 2 [1] [2]).1.2 =
      [Event.encryptionEstablished "b", Event.encryptionEstablished "b"] ∧
    (crossedScenario "a" "b" "ua" "ub" 1 2 [1] [2]).1.2.length ≠ 1 ∧
    (crossedScenario "a" "b" "ua" "ub" 1 2 [1] [2]).2.2.length ≠ 1 := by
  decide

/-- C1 as amended: when two peers cross key-exchange messages in flight,
both sides converge to exactly one stored shared key for the other peer and
there is no reciprocation loop (each side sends exactly two key-exchange
frames in total: its initial message and one response); each side, however,
emits the encryption-established event exactly twice — once when the
incoming initial message establishes the key, once more when the incoming
response finds the key already present. -/
theorem C1_crossed_key_exchange_converges (a b ua ub : String) (privA privB : Nat)
    (pubA pubB : List Nat) :
    (crossedScenario a b ua ub privA privB pubA pubB).1.1.encryptionService.sharedKeys =
      [(b, ⟨privA, pubB⟩)] ∧
    (crossedScenario a b ua ub privA privB pubA pubB).1.2 =
      [Event.encryptionEstablished b, Event.encryptionEstablished b] ∧
    sentFrames (crossedScenario a b ua ub privA privB pubA pubB).1.1 b =
      [Frame.keyExchange pubA a 0 false, Frame.keyExchange pubA a 1 true] ∧
    (crossedScenario a b ua ub privA privB pubA pubB).2.1.encryptionService.sharedKeys =
      [(a, ⟨privB, pubA⟩)] ∧
    (crossedScenario a b ua ub privA privB pubA pubB).2.2 =
      [Event.encryptionEstablished a, Event.encryptionEstablished a] ∧
    sentFrames (crossedScenario a b ua ub privA privB pubA pubB).2.1 a =
      [Frame.keyExchange pubB b 0 false, Frame.keyExchange pubB b 1 true] := by
  simp [crossedScenario, mkKXNode, sentFrames, WebRTCManager.performKeyExchange,
    WebRTCManager.handleFrames, WebRTCManager.handleDataChannelFrame,
    WebRTCManager.handleKeyExchange, WebRTCManager.handleEncryptedMessage,
    EncryptionService.hasSharedKey, EncryptionService.getPublicKey,
    EncryptionService.establishSharedKey, mapHas, mapGet, mapSet]

end SecureChat
